import Mathlib

/-!
# Verification of `source/easeOfAccess.py` and `source/appModules/outlook.py`

A shallow embedding of the two modules.  Registry access is modelled by an
explicit registry state: the set of existing key paths, the string values
stored under them, and error-injection lists recording which paths (or
values) the OS fails to open (or query) with a `WindowsError` other than
`FileNotFoundError`.  Python strings that get split and joined are modelled
as lists of characters (`PyStr`); registry key paths, which are only ever
compared for equality, stay Lean `String`s.
-/

/-- Python string data, as a list of characters. -/
abbrev PyStr := List Char

instance {ε α : Type} [DecidableEq ε] [DecidableEq α] : DecidableEq (Except ε α) := fun x y =>
  match x, y with
  | .ok a, .ok b => if h : a = b then .isTrue (by rw [h]) else .isFalse (by simp [h])
  | .error a, .error b => if h : a = b then .isTrue (by rw [h]) else .isFalse (by simp [h])
  | .ok _, .error _ => .isFalse (by simp)
  | .error _, .ok _ => .isFalse (by simp)

/-- Errors raised by `winreg` calls: `FileNotFoundError` (a missing key or
value) or any other `WindowsError`. -/
inductive RegError where
  | fileNotFound
  | windowsError
deriving DecidableEq, Repr

/-- A view of one registry hive: which key paths exist, the `REG_SZ` values
stored under them (keyed by path and value name; newer entries shadow older
ones), and which opens/queries fail with a generic `WindowsError`. -/
structure RegistryState where
  keys : List String
  values : List (String × String × PyStr)
  openErrors : List String
  queryErrors : List (String × String)
deriving DecidableEq, Repr

/-- First matching entry wins, so `setValueEx` can overwrite by prepending. -/
def lookupVal : List (String × String × PyStr) → String → String → Option PyStr
  | [], _, _ => none
  | (k, n, d) :: rest, key, name =>
    if k = key ∧ n = name then some d else lookupVal rest key name

def KEY_READ : Nat := 0x20019

def KEY_WRITE : Nat := 0x20006

def KEY_WOW64_64KEY : Nat := 0x0100

/-- `winreg.OpenKey hive path access`: returns a handle (identified with the
path) or raises.  The access mask does not influence the outcome in this
model. -/
def openKey (st : RegistryState) (path : String) (_access : Nat) : Except RegError String :=
  if path ∈ st.openErrors then .error .windowsError
  else if path ∈ st.keys then .ok path
  else .error .fileNotFound

/-- `winreg.QueryValueEx k name` for a `REG_SZ` value. -/
def queryValueEx (st : RegistryState) (k : String) (name : String) : Except RegError PyStr :=
  if (k, name) ∈ st.queryErrors then .error .windowsError
  else
    match lookupVal st.values k name with
    | some d => .ok d
    | none => .error .fileNotFound

/-- `winreg.SetValueEx k name None REG_SZ d`. -/
def setValueEx (st : RegistryState) (k : String) (name : String) (d : PyStr) : RegistryState :=
  { st with values := (k, name, d) :: st.values }

/-- Python `s.split(",")`: always returns a non-empty list; splitting the
empty string yields `[""]`. -/
def pySplit : PyStr → List PyStr
  | [] => [[]]
  | c :: rest =>
    if c = ',' then [] :: pySplit rest
    else
      match pySplit rest with
      | [] => [[c]]
      | g :: gs => (c :: g) :: gs

/-- Python `",".join(l)`. -/
def pyJoin : List PyStr → PyStr
  | [] => []
  | [g] => g
  | g :: gs => g ++ ',' :: pyJoin gs

/-! ## `source/easeOfAccess.py` -/

def ROOT_KEY : String := "Software\\Microsoft\\Windows NT\\CurrentVersion\\Accessibility"

def APP_KEY_NAME : String := "nvda_nvda_v1"

/-- `r"%s\ATs\%s" % (ROOT_KEY, APP_KEY_NAME)` -/
def APP_KEY_PATH : String := ROOT_KEY ++ "\\ATs\\" ++ APP_KEY_NAME

/-- `isRegistered()`, over the HKEY_LOCAL_MACHINE hive state.  Both except
clauses (`FileNotFoundError`, `WindowsError`) only log and fall through to
`return False`. -/
def isRegistered (hklm : RegistryState) : Bool :=
  match openKey hklm APP_KEY_PATH (KEY_READ ||| KEY_WOW64_64KEY) with
  | .ok _ => true
  | .error _ => false

/-- `_getAutoStartConfiguration(hkey)`.  Open and query failures are caught
and produce `[]`; otherwise the stored string is split on `","` and a leading
empty element (the artefact of `"".split(",")`) is deleted. -/
def getAutoStartConfiguration (st : RegistryState) : List PyStr :=
  match openKey st ROOT_KEY (KEY_READ ||| KEY_WOW64_64KEY) with
  | .error _ => []
  | .ok k =>
    match queryValueEx st k "Configuration" with
    | .error _ => []
    | .ok v =>
      match pySplit v with
      | [] => []
      | c0 :: rest => if c0 = [] then rest else c0 :: rest

/-- `willAutoStart(hkey)` -/
def willAutoStart (st : RegistryState) : Bool :=
  decide (APP_KEY_NAME.toList ∈ getAutoStartConfiguration st)

/-- Exceptions `setAutoStart` can raise: the `UnboundLocalError` from reading
the never-initialised local `changed`, or a registry error from the write
phase. -/
inductive PyError where
  | unboundLocal
  | reg (e : RegError)
deriving DecidableEq, Repr

/-- `setAutoStart(hkey, enable)`.  The local `changed` is only ever assigned
(to `True`) on the two mutation paths; `none` models it being left unbound,
in which case the trailing `if changed:` raises `UnboundLocalError`.  The
`ValueError` from `conf.remove` on an absent element is swallowed by its
`except ValueError: pass`. -/
def setAutoStart (st : RegistryState) (enable : Bool) : Except PyError RegistryState :=
  let conf := getAutoStartConfiguration st
  let step : List PyStr × Option Unit :=
    if enable = true ∧ APP_KEY_NAME.toList ∉ conf then
      (conf ++ [APP_KEY_NAME.toList], some ())
    else if enable = false then
      if APP_KEY_NAME.toList ∈ conf then (conf.erase APP_KEY_NAME.toList, some ())
      else (conf, none)
    else (conf, none)
  match step.2 with
  | none => .error .unboundLocal
  | some _ =>
    match openKey st ROOT_KEY (KEY_READ ||| KEY_WRITE ||| KEY_WOW64_64KEY) with
    | .error e => .error (.reg e)
    | .ok k => .ok (setValueEx st k "Configuration" (pyJoin step.1))

/-! ### `notify` and the synthesized key chord -/

def VK_SHIFT : Nat := 0x10

def VK_CONTROL : Nat := 0x11

def VK_MENU : Nat := 0x12

def KEYEVENTF_KEYUP : Nat := 2

/-- One entry of the `winUser.Input` array: virtual-key code and flags
(`dwFlags = 0` presses the key, `KEYEVENTF_KEYUP` releases it). -/
structure KInput where
  wVk : Nat
  dwFlags : Nat
deriving DecidableEq, Repr

/-- The modifiers the user is holding, in the order the loop tests them.
`getAsyncKeyState` is a function from virtual-key code to the reported state
word; bit 15 (`& 32768`) means the key is down. -/
def heldModifiers (ks : Nat → Nat) : List Nat :=
  [VK_SHIFT, VK_CONTROL, VK_MENU].filter (fun vk => ks vk &&& 32768 != 0)

/-- The `keys` list built by `notify`: `(vk, desired)` pairs — held modifiers
with `desired = False`, then leftWindows and U with `desired = True`. -/
def notifyKeys (ks : Nat → Nat) : List (Nat × Bool) :=
  (heldModifiers ks).map (fun vk => (vk, false)) ++ [(0x5B, true), (0x55, true)]

/-- The input array `notify` passes to `SendInput`: first release unwanted
keys and press desired keys, then walk `keys` in reverse releasing desired
keys and pressing unwanted ones. -/
def notifyInputs (ks : Nat → Nat) : List KInput :=
  (notifyKeys ks).map (fun p => ⟨p.1, if p.2 then 0 else KEYEVENTF_KEYUP⟩)
    ++ (notifyKeys ks).reverse.map (fun p => ⟨p.1, if p.2 then KEYEVENTF_KEYUP else 0⟩)

/-- Effect of one injected input on the pressed/released state of the keys. -/
def applyInput (s : Nat → Bool) (i : KInput) : Nat → Bool :=
  fun vk => if vk = i.wVk then i.dwFlags != KEYEVENTF_KEYUP else s vk

/-- The keyboard state before `notify` runs, in the claim's model: exactly the
reported modifiers are down. -/
def initiallyHeld (ks : Nat → Nat) : Nat → Bool :=
  fun vk => (heldModifiers ks).contains vk

/-- The machine state `notify` touches: the HKLM hive (read by
`isRegistered`) and the `nvda_nvda_v1` `REG_DWORD` value under the
HKCU `...\AccessibilityTemp` key it writes. -/
structure MachineState where
  hklm : RegistryState
  accessibilityTemp : Option Nat
deriving DecidableEq, Repr

/-- `notify(signal)`: returns the new machine state and the list of inputs
handed to `SendInput` (empty when the early `return` fires). -/
def notify (m : MachineState) (signal : Nat) (ks : Nat → Nat) : MachineState × List KInput :=
  if isRegistered m.hklm = false then (m, [])
  else ({ m with accessibilityTemp := some signal }, notifyInputs ks)

/-! ## `source/appModules/outlook.py` -/

/-! Role and state constants come from the host runtime's `controlTypes`
module, which is outside this repository; only their distinctness matters
here.  The numeric values follow NVDA's `controlTypes`. -/

def ROLE_UNKNOWN : Nat := 0

def ROLE_PANE : Nat := 3

def ROLE_EDITABLETEXT : Nat := 8

def ROLE_MENUBAR : Nat := 10

def ROLE_MENUITEM : Nat := 11

def ROLE_LIST : Nat := 14

def ROLE_LISTITEM : Nat := 15

def ROLE_GRAPHIC : Nat := 16

def ROLE_TREEVIEW : Nat := 20

def ROLE_TREEVIEWITEM : Nat := 21

/-- `importanceLabels = {2: "high importance", 0: "low importance"}`, accessed
with `.get`, so every other importance value maps to no label. -/
def importanceLabels : Nat → Option String
  | 2 => some "high importance"
  | 0 => some "low importance"
  | _ => none

/-- `controlTypes.stateLabels[STATE_EXPANDED]` (host-runtime constant). -/
def stateLabelExpanded : String := "expanded"

/-- `controlTypes.stateLabels[STATE_COLLAPSED]` (host-runtime constant). -/
def stateLabelCollapsed : String := "collapsed"

/-- A `COMError`, carrying its HRESULT. -/
structure ComErr where
  hresult : Int
deriving DecidableEq, Repr

/-- The selected Outlook item as seen by `UIAGridRow._get_name`: each COM
property read can either produce a value or raise `COMError`. -/
structure OutlookSelection where
  unread : Except ComErr Bool
  attachmentsCount : Except ComErr Nat
  importance : Except ComErr Nat
  messageClass : Except ComErr (Option String)

/-- A child row object as used by the loop at the end of `_get_name`.
Python's truthiness tests on `child.name` and `child.columnHeaderText` treat
`None` and `""` alike, so both are modelled by the empty string. -/
structure GridRowChild where
  isGridRow : Bool
  role : Nat
  name : String
  columnHeaderText : String

/-- Everything `UIAGridRow._get_name` reads. -/
structure GridRowEnv where
  stateExpanded : Bool
  stateCollapsed : Bool
  hasNativeOm : Bool
  selectionRead : Except ComErr OutlookSelection
  reportTableHeaders : Bool
  children : List GridRowChild

/-- The text a child contributes to the name, `none` when the child is
skipped by `continue` (or by the final `if text:`). -/
def gridChildText (reportTableHeaders : Bool) (c : GridRowChild) : Option String :=
  if c.isGridRow ∨ c.role = ROLE_GRAPHIC ∨ c.name = "" then none
  else
    let text := if reportTableHeaders = true ∧ c.columnHeaderText ≠ ""
      then c.columnHeaderText ++ " " ++ c.name
      else c.name
    if text ≠ "" then some (text ++ ",") else none

/-- `UIAGridRow._get_name`.  Each of the four COM property reads on the
selected item is wrapped in its own `try`/`except COMError` with a fallback
value (`False`, `0`, `1`, `None`); the selection read itself falls back to
`None`. -/
def uiaGridRowName (env : GridRowEnv) : String :=
  let textList : List String :=
    if env.stateExpanded then [stateLabelExpanded]
    else if env.stateCollapsed then [stateLabelCollapsed]
    else []
  let selection : Option OutlookSelection :=
    if env.hasNativeOm then
      match env.selectionRead with
      | .ok s => some s
      | .error _ => none
    else none
  let textList := match selection with
    | none => textList
    | some sel =>
      let unread := match sel.unread with
        | .ok b => b
        | .error _ => false
      let textList := if unread then textList ++ ["unread"] else textList
      let attachmentCount := match sel.attachmentsCount with
        | .ok n => n
        | .error _ => 0
      let textList := if attachmentCount > 0 then textList ++ ["has attachment"] else textList
      let importance := match sel.importance with
        | .ok n => n
        | .error _ => 1
      let textList := match importanceLabels importance with
        | some lab => textList ++ [lab]
        | none => textList
      let messageClass := match sel.messageClass with
        | .ok m => m
        | .error _ => none
      if messageClass = some "IPM.Schedule.Meeting.Request"
        then textList ++ ["meeting request"]
        else textList
  let textList := textList ++ env.children.filterMap (gridChildText env.reportTableHeaders)
  String.intercalate " " textList

/-- An environment in which the native object model is available and the
selection read yields `sel`. -/
def withSel (env : GridRowEnv) (sel : OutlookSelection) : GridRowEnv :=
  { env with hasNativeOm := true, selectionRead := .ok sel }

/-- A selection on which all four COM property reads raise `COMError`. -/
def selAllErrors (e1 e2 e3 e4 : ComErr) : OutlookSelection :=
  ⟨.error e1, .error e2, .error e3, .error e4⟩

/-- A selection carrying the fallback values the handlers substitute. -/
def selAllDefaults : OutlookSelection :=
  ⟨.ok false, .ok 0, .ok 1, .ok none⟩

/-! ### `CalendarView._generateTimeRangeText` -/

/-- A `datetime` as the method uses it: its `.date()` (an abstract ordinal)
and its time of day.  The Windows formatting calls are abstract functions of
the whole value. -/
structure PyDateTime where
  dateOrd : Int
  timeOfDay : Nat
deriving DecidableEq, Repr

/-- `CalendarView._generateTimeRangeText(startTime, endTime)`:
`fmtTime` stands for `winKernel.GetTimeFormat(..., TIME_NOSECONDS, t, None)`,
`fmtLongDate` for `winKernel.GetDateFormat(..., DATE_LONGDATE, t, None)`, and
`lastStartDate` for the class variable `CalendarView._lastStartDate` (whose
updated value is returned alongside the text). -/
def generateTimeRangeText (fmtTime fmtLongDate : PyDateTime → String)
    (lastStartDate : Option Int) (startTime endTime : PyDateTime) : String × Option Int :=
  let startText := fmtTime startTime
  let endText := fmtTime endTime
  let startDate := startTime.dateOrd
  let endDate := endTime.dateOrd
  let notLast : Bool := match lastStartDate with
    | none => true
    | some d => decide (startDate ≠ d)
  let startText := if notLast || decide (endDate ≠ startDate)
    then fmtLongDate startTime ++ " " ++ startText
    else startText
  let endText := if endDate ≠ startDate
    then fmtLongDate endTime ++ " " ++ endText
    else endText
  (startText ++ " to " ++ endText, some startDate)

/-! ### `AppModule.event_NVDAObject_init` -/

/-- The mutable fields of an NVDA object the handler reads or writes.
`P` is the type of parent values; `isMSHTML` models
`isinstance(obj, MSHTML)`. -/
structure NVDAObject (P : Type) where
  role : Nat
  windowClassName : String
  windowControlID : Int
  parent : P
  description : Option String
  shouldAllowIAccessibleFocusEvent : Bool
  isMSHTML : Bool

/-- `event_NVDAObject_init(self, obj)`.  `role`, `windowClassName` and
`controlID` are read once at the top; `getParent` models
`Window._get_parent` applied to the (live) object and `getParentW` its
second application to the resulting window. -/
def event_NVDAObject_init {P : Type} (getParent : NVDAObject P → P) (getParentW : P → P)
    (obj0 : NVDAObject P) : NVDAObject P :=
  let role := obj0.role
  let windowClassName := obj0.windowClassName
  let controlID := obj0.windowControlID
  let obj1 := if role = ROLE_EDITABLETEXT ∧ windowClassName = "RichEdit20W" ∧ controlID = 8224
    then { obj0 with parent := getParentW (getParent obj0) }
    else obj0
  let obj2 := if windowClassName = "Internet Explorer_Server" ∧ role = ROLE_PANE ∧ obj1.isMSHTML = false
    then { obj1 with parent := getParentW (getParent obj1) }
    else obj1
  let obj3 := if role = ROLE_MENUBAR ∨ role = ROLE_MENUITEM
    then { obj2 with description := none }
    else obj2
  let obj4 := if role = ROLE_TREEVIEW ∨ role = ROLE_TREEVIEWITEM ∨ role = ROLE_LIST ∨ role = ROLE_LISTITEM
    then { obj3 with shouldAllowIAccessibleFocusEvent := true }
    else obj3
  if ((windowClassName = "SUPERGRID" ∧ controlID = 4704)
      ∨ (windowClassName = "rctrl_renwnd32" ∧ controlID = 109)) ∧ role = ROLE_UNKNOWN
    then { obj4 with role := ROLE_LISTITEM }
    else obj4

/-! Concrete registry states used as witnesses and counterexamples. -/

/-- An entirely empty hive: no keys at all. -/
def emptyHive : RegistryState := ⟨[], [], [], []⟩

/-- The Accessibility root key exists but holds no `Configuration` value. -/
def hiveNoConf : RegistryState := ⟨[ROOT_KEY], [], [], []⟩

/-- `Configuration` already contains the NVDA identifier once. -/
def hiveEnabled : RegistryState :=
  ⟨[ROOT_KEY], [(ROOT_KEY, "Configuration", "nvda_nvda_v1".toList)], [], []⟩

/-- `Configuration` holds an unrelated identifier. -/
def hiveOther : RegistryState :=
  ⟨[ROOT_KEY], [(ROOT_KEY, "Configuration", "otherAT".toList)], [], []⟩

/-- `Configuration` contains the NVDA identifier twice. -/
def hiveDup : RegistryState :=
  ⟨[ROOT_KEY], [(ROOT_KEY, "Configuration", "nvda_nvda_v1,nvda_nvda_v1".toList)], [], []⟩

/-- The state `setAutoStart hiveDup false` writes back: one copy survives. -/
def hiveDupAfter : RegistryState :=
  setValueEx hiveDup ROOT_KEY "Configuration" "nvda_nvda_v1".toList

/-- The NVDA application key is registered under HKLM. -/
def hiveRegistered : RegistryState := ⟨[APP_KEY_PATH], [], [], []⟩

/-- `Configuration` exists and is the empty string. -/
def hiveEmptyConf : RegistryState := ⟨[ROOT_KEY], [(ROOT_KEY, "Configuration", [])], [], []⟩


/-! ## Helper lemmas about Python string splitting and joining -/

theorem pySplit_ne_nil : ∀ s : PyStr, pySplit s ≠ []
  | [] => by simp [pySplit]
  | c :: rest => by
    simp only [pySplit]
    split
    · simp
    · split <;> simp

theorem pySplit_no_comma (g : PyStr) (h : ',' ∉ g) : pySplit g = [g] := by
  induction g with
  | nil => rfl
  | cons c rest ih =>
    have hc : ¬ c = ',' := fun hce => h (hce ▸ List.mem_cons_self c rest)
    have hrest : ',' ∉ rest := fun hm => h (List.mem_cons_of_mem _ hm)
    simp [pySplit, hc, ih hrest]

theorem pySplit_append (g rest : PyStr) (h : ',' ∉ g) :
    pySplit (g ++ ',' :: rest) = g :: pySplit rest := by
  induction g with
  | nil => simp [pySplit]
  | cons c g2 ih =>
    have hc : ¬ c = ',' := fun hce => h (hce ▸ List.mem_cons_self c g2)
    have hg2 : ',' ∉ g2 := fun hm => h (List.mem_cons_of_mem _ hm)
    simp [pySplit, hc, ih hg2]

theorem pySplit_pyJoin (l : List PyStr) (hne : l ≠ []) (h : ∀ g ∈ l, ',' ∉ g) :
    pySplit (pyJoin l) = l := by
  induction l with
  | nil => cases hne rfl
  | cons g gs ih =>
    cases gs with
    | nil => simpa [pyJoin] using pySplit_no_comma g (h g (List.mem_cons_self g []))
    | cons g2 gs2 =>
      have hjoin : pyJoin (g :: g2 :: gs2) = g ++ ',' :: pyJoin (g2 :: gs2) := rfl
      rw [hjoin, pySplit_append g _ (h g (List.mem_cons_self g _)),
        ih (by simp) (fun x hx => h x (List.mem_cons_of_mem _ hx))]

theorem mem_pySplit_no_comma (s : PyStr) (g : PyStr) (hg : g ∈ pySplit s) : ',' ∉ g := by
  induction s generalizing g with
  | nil =>
    rw [show pySplit [] = [[]] from rfl, List.mem_singleton] at hg
    subst hg; simp
  | cons c rest ih =>
    by_cases hc : c = ','
    · subst hc
      have h1 : pySplit (',' :: rest) = [] :: pySplit rest := by
        rw [pySplit, if_pos rfl]
      rw [h1] at hg
      rcases List.mem_cons.mp hg with rfl | hg
      · simp
      · exact ih g hg
    · cases hsp : pySplit rest with
      | nil => exact absurd hsp (pySplit_ne_nil rest)
      | cons h0 t =>
        have h1 : pySplit (c :: rest) = (c :: h0) :: t := by
          rw [pySplit, if_neg hc, hsp]
        rw [h1] at hg
        rcases List.mem_cons.mp hg with rfl | hg2
        · intro hmem
          rcases List.mem_cons.mp hmem with h1e | h1e
          · exact hc h1e.symm
          · exact ih h0 (hsp ▸ List.mem_cons_self h0 t) h1e
        · exact ih g (hsp ▸ List.mem_cons_of_mem h0 hg2)

theorem getAutoStartConfiguration_no_comma (st : RegistryState) (g : PyStr)
    (hg : g ∈ getAutoStartConfiguration st) : ',' ∉ g := by
  unfold getAutoStartConfiguration at hg
  split at hg
  · simp at hg
  · split at hg
    · simp at hg
    · rename_i k hok v hq
      split at hg
      · simp at hg
      · rename_i c0 rest hsp
        have hsub : g ∈ pySplit v := by
          rw [hsp]
          by_cases h0 : c0 = []
          · rw [if_pos h0] at hg; exact List.mem_cons_of_mem _ hg
          · rw [if_neg h0] at hg; exact hg
        exact mem_pySplit_no_comma v g hsub

theorem openKey_ok (st : RegistryState) (p : String) (a : Nat) (k : String)
    (h : openKey st p a = .ok k) : k = p ∧ p ∈ st.keys ∧ p ∉ st.openErrors := by
  unfold openKey at h
  by_cases h1 : p ∈ st.openErrors
  · rw [if_pos h1] at h; cases h
  · rw [if_neg h1] at h
    by_cases h2 : p ∈ st.keys
    · rw [if_pos h2] at h
      exact ⟨(Except.ok.injEq _ _ ▸ h).symm, h2, h1⟩
    · rw [if_neg h2] at h; cases h

/-- Reading the configuration back after writing `pyJoin conf`: membership of
any non-empty identifier is preserved (the read deletes a leading empty
element, but a non-empty identifier is unaffected by that). -/
theorem mem_getAutoStartConfiguration_setValueEx (st : RegistryState) (conf : List PyStr)
    (hkeys : ROOT_KEY ∈ st.keys) (hopen : ROOT_KEY ∉ st.openErrors)
    (hquery : (ROOT_KEY, "Configuration") ∉ st.queryErrors)
    (hcf : ∀ g ∈ conf, ',' ∉ g) (a : PyStr) (ha : a ≠ []) :
    (a ∈ getAutoStartConfiguration (setValueEx st ROOT_KEY "Configuration" (pyJoin conf)))
      ↔ a ∈ conf := by
  have hok : openKey (setValueEx st ROOT_KEY "Configuration" (pyJoin conf)) ROOT_KEY
      (KEY_READ ||| KEY_WOW64_64KEY) = .ok ROOT_KEY := by
    simp [openKey, setValueEx, hopen, hkeys]
  have hq : queryValueEx (setValueEx st ROOT_KEY "Configuration" (pyJoin conf)) ROOT_KEY
      "Configuration" = .ok (pyJoin conf) := by
    simp [queryValueEx, setValueEx, hquery, lookupVal]
  have hread : getAutoStartConfiguration (setValueEx st ROOT_KEY "Configuration" (pyJoin conf))
      = match pySplit (pyJoin conf) with
        | [] => []
        | c0 :: rest => if c0 = [] then rest else c0 :: rest := by
    simp only [getAutoStartConfiguration, hok, hq]
  rw [hread]
  cases conf with
  | nil => simp [pyJoin, pySplit]
  | cons g gs =>
    rw [pySplit_pyJoin _ (by simp) hcf,
      show (match g :: gs with
        | ([] : List PyStr) => ([] : List PyStr)
        | c0 :: rest => if c0 = [] then rest else c0 :: rest) = if g = [] then gs else g :: gs
        from rfl]
    by_cases hg : g = []
    · subst hg
      simp only [if_pos rfl]
      constructor
      · exact fun h => List.mem_cons_of_mem _ h
      · intro h
        rcases List.mem_cons.mp h with rfl | h2
        · exact absurd rfl ha
        · exact h2
    · rw [if_neg hg]

theorem app_key_no_comma : ',' ∉ APP_KEY_NAME.toList := by decide

theorem app_key_ne_nil : APP_KEY_NAME.toList ≠ ([] : PyStr) := by decide

/-- C1 (amended): if the stored configuration list contains at most one
occurrence of the identifier and `setAutoStart` returns without raising,
then `willAutoStart` afterwards returns the requested flag. -/
theorem setAutoStart_sets_willAutoStart (st st' : RegistryState) (b : Bool)
    (hquery : (ROOT_KEY, "Configuration") ∉ st.queryErrors)
    (hcount : (getAutoStartConfiguration st).count APP_KEY_NAME.toList ≤ 1)
    (hok : setAutoStart st b = .ok st') :
    willAutoStart st' = b := by
  simp only [setAutoStart] at hok
  split at hok
  · exact absurd hok (by simp)
  · rename_i u hstep
    split at hok
    · exact absurd hok (by simp)
    · rename_i k hopenk
      obtain ⟨rfl, hkeys, hoerr⟩ := openKey_ok st ROOT_KEY _ k hopenk
      have hst' : setValueEx st ROOT_KEY "Configuration"
          (pyJoin (if b = true ∧ APP_KEY_NAME.toList ∉ getAutoStartConfiguration st then
              (getAutoStartConfiguration st ++ [APP_KEY_NAME.toList], some ())
            else if b = false then
              if APP_KEY_NAME.toList ∈ getAutoStartConfiguration st then
                ((getAutoStartConfiguration st).erase APP_KEY_NAME.toList, some ())
              else (getAutoStartConfiguration st, none)
            else (getAutoStartConfiguration st, none)).1) = st' := by
        injection hok
      by_cases hC1 : b = true ∧ APP_KEY_NAME.toList ∉ getAutoStartConfiguration st
      · rw [if_pos hC1] at hst'
        subst hst'
        have hcf : ∀ g ∈ getAutoStartConfiguration st ++ [APP_KEY_NAME.toList], ',' ∉ g := by
          intro g hg
          rcases List.mem_append.mp hg with hg | hg
          · exact getAutoStartConfiguration_no_comma st g hg
          · rw [List.mem_singleton.mp hg]; exact app_key_no_comma
        rw [hC1.1, willAutoStart, decide_eq_true_eq]
        exact (mem_getAutoStartConfiguration_setValueEx st _ hkeys hoerr hquery hcf
          _ app_key_ne_nil).mpr (List.mem_append.mpr (Or.inr (List.mem_singleton.mpr rfl)))
      · rw [if_neg hC1] at hst' hstep
        by_cases hC2 : b = false
        · rw [if_pos hC2] at hst' hstep
          by_cases hmem : APP_KEY_NAME.toList ∈ getAutoStartConfiguration st
          · rw [if_pos hmem] at hst'
            subst hst'
            have hcf : ∀ g ∈ (getAutoStartConfiguration st).erase APP_KEY_NAME.toList, ',' ∉ g :=
              fun g hg => getAutoStartConfiguration_no_comma st g (List.erase_subset _ _ hg)
            rw [hC2, willAutoStart, decide_eq_false_iff_not.mpr]
            rw [mem_getAutoStartConfiguration_setValueEx st _ hkeys hoerr hquery hcf
              _ app_key_ne_nil]
            intro habs
            have h1 : (getAutoStartConfiguration st).count APP_KEY_NAME.toList = 1 :=
              Nat.le_antisymm hcount (List.count_pos_iff.mpr hmem)
            have h0 : ((getAutoStartConfiguration st).erase APP_KEY_NAME.toList).count
                APP_KEY_NAME.toList = 0 := by
              rw [List.count_erase_self, h1]
            exact (List.count_eq_zero.mp h0) habs
          · rw [if_neg hmem] at hstep
            exact absurd hstep (by simp)
        · rw [if_neg hC2] at hstep
          exact absurd hstep (by simp)

/-- C1 (counterexample): with the identifier stored twice, disabling removes
only the first occurrence, so `setAutoStart` returns normally yet
`willAutoStart` still reports `true` where the claim requires `false`. -/
theorem setAutoStart_duplicate_counterexample :
    setAutoStart hiveDup false = .ok hiveDupAfter ∧ willAutoStart hiveDupAfter = true := by
  decide

/-- Witness for `setAutoStart_sets_willAutoStart` at a concrete input. -/
theorem setAutoStart_sets_willAutoStart_witness :
    willAutoStart (setValueEx hiveNoConf ROOT_KEY "Configuration" "nvda_nvda_v1".toList) = true :=
  setAutoStart_sets_willAutoStart hiveNoConf
    (setValueEx hiveNoConf ROOT_KEY "Configuration" "nvda_nvda_v1".toList) true
    (by decide) (by decide) (by decide)

/-- C2: when the desired state already holds (`enable` and the identifier is
already present, or `not enable` and it is absent), `setAutoStart` does not
complete normally: the local `changed` was never assigned, so the trailing
`if changed:` raises `UnboundLocalError`. -/
theorem setAutoStart_raises_when_no_change_needed :
    setAutoStart hiveEnabled true = .error .unboundLocal
      ∧ setAutoStart hiveOther false = .error .unboundLocal := by
  decide

/-- C3 (counterexample): with the Accessibility root key absent, the write
phase of `setAutoStart` re-raises the `FileNotFoundError` from `OpenKey`, so
a registry error does escape an Ease-of-Access operation. -/
theorem setAutoStart_propagates_registry_error :
    setAutoStart emptyHive true = .error (.reg .fileNotFound) := by
  decide

/-- C3 (amended): `isRegistered` and `_getAutoStartConfiguration` catch every
registry error internally (returning `False` and the empty list), while
`setAutoStart`'s write phase may propagate a `WindowsError`, as its docstring
documents. -/
theorem registry_errors_caught_in_readers :
    (∀ st : RegistryState, ∀ e, openKey st APP_KEY_PATH (KEY_READ ||| KEY_WOW64_64KEY) = .error e
      → isRegistered st = false)
    ∧ (∀ st : RegistryState, ∀ e, openKey st ROOT_KEY (KEY_READ ||| KEY_WOW64_64KEY) = .error e
      → getAutoStartConfiguration st = [])
    ∧ (∀ st : RegistryState, ∀ k e, openKey st ROOT_KEY (KEY_READ ||| KEY_WOW64_64KEY) = .ok k
      → queryValueEx st k "Configuration" = .error e
      → getAutoStartConfiguration st = []) := by
  refine ⟨?_, ?_, ?_⟩
  · intro st e he
    unfold isRegistered
    split
    · rename_i k hk; rw [he] at hk; cases hk
    · rfl
  · intro st e he
    unfold getAutoStartConfiguration
    split
    · rfl
    · rename_i k hk; rw [he] at hk; cases hk
  · intro st k e hk he
    unfold getAutoStartConfiguration
    split
    · rfl
    · rename_i k2 hk2
      have hkk : k2 = k := by
        rw [hk] at hk2
        injection hk2 with h
        exact h.symm
      subst hkk
      split
      · rfl
      · rename_i v hv; rw [he] at hv; cases hv

/-- Witness for `registry_errors_caught_in_readers` at concrete inputs. -/
theorem registry_errors_caught_in_readers_witness :
    isRegistered emptyHive = false
      ∧ getAutoStartConfiguration emptyHive = []
      ∧ getAutoStartConfiguration hiveNoConf = [] :=
  ⟨registry_errors_caught_in_readers.1 emptyHive .fileNotFound (by decide),
    registry_errors_caught_in_readers.2.1 emptyHive .fileNotFound (by decide),
    registry_errors_caught_in_readers.2.2 hiveNoConf ROOT_KEY .fileNotFound
      (by decide) (by decide)⟩

/-- C4: `isRegistered` returns `True` exactly when opening the fixed key path
`Software\Microsoft\Windows NT\CurrentVersion\Accessibility\ATs\nvda_nvda_v1`
succeeds, and returns `False` (instead of raising) on `FileNotFoundError` or
any other `WindowsError`. -/
theorem isRegistered_iff_open_succeeds :
    (∀ st : RegistryState, ∀ k, openKey st APP_KEY_PATH (KEY_READ ||| KEY_WOW64_64KEY) = .ok k
      → isRegistered st = true)
    ∧ (∀ st : RegistryState, ∀ e, openKey st APP_KEY_PATH (KEY_READ ||| KEY_WOW64_64KEY) = .error e
      → isRegistered st = false)
    ∧ APP_KEY_PATH
      = "Software\\Microsoft\\Windows NT\\CurrentVersion\\Accessibility\\ATs\\nvda_nvda_v1" := by
  refine ⟨?_, ?_, by decide⟩
  · intro st k hk
    unfold isRegistered
    split
    · rfl
    · rename_i e he; rw [hk] at he; cases he
  · intro st e he
    unfold isRegistered
    split
    · rename_i k hk; rw [he] at hk; cases hk
    · rfl

/-- Witness for `isRegistered_iff_open_succeeds` at concrete inputs. -/
theorem isRegistered_iff_open_succeeds_witness :
    isRegistered hiveRegistered = true ∧ isRegistered emptyHive = false :=
  ⟨isRegistered_iff_open_succeeds.1 hiveRegistered APP_KEY_PATH (by decide),
    isRegistered_iff_open_succeeds.2.1 emptyHive .fileNotFound (by decide)⟩

/-- C6: with a readable empty `Configuration` value the function returns the
empty list (the artefact of splitting `""` is removed) and `willAutoStart`
is `False`; with a value whose first comma-separated element is non-empty it
returns exactly the split elements. -/
theorem getAutoStartConfiguration_split_behaviour (st : RegistryState) (v : PyStr)
    (hkeys : ROOT_KEY ∈ st.keys) (hoerr : ROOT_KEY ∉ st.openErrors)
    (hqerr : (ROOT_KEY, "Configuration") ∉ st.queryErrors)
    (hval : lookupVal st.values ROOT_KEY "Configuration" = some v) :
    (v = [] → getAutoStartConfiguration st = [] ∧ willAutoStart st = false)
    ∧ (∀ c0 rest, pySplit v = c0 :: rest → c0 ≠ []
      → getAutoStartConfiguration st = c0 :: rest) := by
  have hopen : openKey st ROOT_KEY (KEY_READ ||| KEY_WOW64_64KEY) = .ok ROOT_KEY := by
    simp [openKey, hoerr, hkeys]
  have hqv : queryValueEx st ROOT_KEY "Configuration" = .ok v := by
    simp [queryValueEx, hqerr, hval]
  have hread : getAutoStartConfiguration st
      = match pySplit v with
        | [] => []
        | c0 :: rest => if c0 = [] then rest else c0 :: rest := by
    simp only [getAutoStartConfiguration, hopen, hqv]
  constructor
  · rintro rfl
    have hempty : getAutoStartConfiguration st = [] := by
      rw [hread, show pySplit [] = [[]] from rfl]
      decide
    refine ⟨hempty, ?_⟩
    rw [willAutoStart, hempty]
    decide
  · intro c0 rest hsp hne
    rw [hread, hsp]
    show (if c0 = [] then rest else c0 :: rest) = c0 :: rest
    rw [if_neg hne]

/-- Witness for `getAutoStartConfiguration_split_behaviour` at concrete
inputs. -/
theorem getAutoStartConfiguration_split_behaviour_witness :
    (getAutoStartConfiguration hiveEmptyConf = [] ∧ willAutoStart hiveEmptyConf = false)
      ∧ getAutoStartConfiguration hiveEnabled = ["nvda_nvda_v1".toList] :=
  ⟨(getAutoStartConfiguration_split_behaviour hiveEmptyConf [] (by decide) (by decide)
      (by decide) (by decide)).1 rfl,
    (getAutoStartConfiguration_split_behaviour hiveEnabled "nvda_nvda_v1".toList (by decide)
      (by decide) (by decide) (by decide)).2 "nvda_nvda_v1".toList [] (by decide) (by decide)⟩

/-- C5: for every reported modifier state, the synthesized input sequence is
key-ups for the held modifiers in the order shift, control, alt; then
key-downs for leftWindows (0x5B) and U (0x55); then key-ups for U and
leftWindows; then key-downs re-pressing the held modifiers in reverse order —
and replaying the sequence over the claim's initial keyboard state (exactly
the reported modifiers down) restores every key to its initial state. -/
theorem notifyInputs_sequence_and_restore (ks : Nat → Nat) :
    notifyInputs ks =
      ((heldModifiers ks).map fun vk => KInput.mk vk KEYEVENTF_KEYUP)
        ++ [KInput.mk 0x5B 0, KInput.mk 0x55 0, KInput.mk 0x55 KEYEVENTF_KEYUP,
            KInput.mk 0x5B KEYEVENTF_KEYUP]
        ++ ((heldModifiers ks).reverse.map fun vk => KInput.mk vk 0)
    ∧ ∀ vk, (notifyInputs ks).foldl applyInput (initiallyHeld ks) vk = initiallyHeld ks vk := by
  cases hS : ks VK_SHIFT &&& 32768 != 0 <;>
    cases hC : ks VK_CONTROL &&& 32768 != 0 <;>
      cases hA : ks VK_MENU &&& 32768 != 0 <;>
  · refine ⟨by simp [notifyInputs, notifyKeys, heldModifiers, hS, hC, hA], ?_⟩
    intro vk
    simp only [notifyInputs, notifyKeys, heldModifiers, initiallyHeld, hS, hC, hA,
      List.filter, List.map, List.append_assoc, List.cons_append, List.nil_append,
      List.reverse_cons, List.reverse_nil, List.foldl, applyInput]
    split_ifs <;> simp_all [VK_SHIFT, VK_CONTROL, VK_MENU, KEYEVENTF_KEYUP, List.contains]

/-- C10: `notify` is gated on `isRegistered`: when registration is absent it
returns immediately without writing the signal or sending input; when present
it writes the signal as a `REG_DWORD` under the AccessibilityTemp key and
sends the (non-empty) key chord. -/
theorem notify_only_acts_when_registered (m : MachineState) (signal : Nat) (ks : Nat → Nat) :
    (isRegistered m.hklm = false → notify m signal ks = (m, []))
    ∧ (isRegistered m.hklm = true →
        notify m signal ks = ({ m with accessibilityTemp := some signal }, notifyInputs ks)
          ∧ notifyInputs ks ≠ []) := by
  constructor
  · intro h
    simp [notify, h]
  · intro h
    refine ⟨by simp [notify, h], ?_⟩
    simp [notifyInputs, notifyKeys]

/-- Witness for `notify_only_acts_when_registered` at concrete inputs. -/
theorem notify_only_acts_when_registered_witness :
    notify ⟨emptyHive, none⟩ 3 (fun _ => 0) = (⟨emptyHive, none⟩, [])
    ∧ notify ⟨hiveRegistered, none⟩ 3 (fun _ => 0)
      = (⟨hiveRegistered, some 3⟩, notifyInputs (fun _ => 0)) :=
  ⟨(notify_only_acts_when_registered ⟨emptyHive, none⟩ 3 (fun _ => 0)).1 (by decide),
    ((notify_only_acts_when_registered ⟨hiveRegistered, none⟩ 3 (fun _ => 0)).2 (by decide)).1⟩

/-- C7: the produced text is `"<startText> to <endText>"`; the end text gets
the long-date prefix exactly when the end date differs from the start date;
the start text gets it exactly when `_lastStartDate` is unset or differs from
the start date (together: `last ≠ some startDate`) or the end date differs
from the start date; afterwards `_lastStartDate` equals the start date. -/
theorem generateTimeRangeText_spec (ft fd : PyDateTime → String) (last : Option Int)
    (s e : PyDateTime) :
    (generateTimeRangeText ft fd last s e).1
      = (if last ≠ some s.dateOrd ∨ e.dateOrd ≠ s.dateOrd
          then fd s ++ " " ++ ft s else ft s)
        ++ " to "
        ++ (if e.dateOrd ≠ s.dateOrd then fd e ++ " " ++ ft e else ft e)
    ∧ (generateTimeRangeText ft fd last s e).2 = some s.dateOrd := by
  cases last with
  | none => exact ⟨by simp [generateTimeRangeText], rfl⟩
  | some d =>
    by_cases hd : s.dateOrd = d
    · subst hd
      by_cases he : e.dateOrd = s.dateOrd <;>
        exact ⟨by simp [generateTimeRangeText, he], rfl⟩
    · have hd2 : ¬ d = s.dateOrd := fun h => hd h.symm
      by_cases he : e.dateOrd = s.dateOrd <;>
        exact ⟨by simp [generateTimeRangeText, hd, hd2, he], rfl⟩

/-- C8: each of the four COM property reads in `UIAGridRow._get_name` is
individually guarded — a failing `unread` acts as `False`, a failing
`attachments.count` as `0`, a failing `importance` as `1` (which maps to no
importance label), a failing `messageClass` as `None` — and under any
combination of failures the name computation still produces its string. -/
theorem uiaGridRowName_com_guards (env : GridRowEnv) (sel : OutlookSelection)
    (e1 e2 e3 e4 : ComErr) :
    uiaGridRowName (withSel env { sel with unread := .error e1 })
      = uiaGridRowName (withSel env { sel with unread := .ok false })
    ∧ uiaGridRowName (withSel env { sel with attachmentsCount := .error e2 })
      = uiaGridRowName (withSel env { sel with attachmentsCount := .ok 0 })
    ∧ uiaGridRowName (withSel env { sel with importance := .error e3 })
      = uiaGridRowName (withSel env { sel with importance := .ok 1 })
    ∧ uiaGridRowName (withSel env { sel with messageClass := .error e4 })
      = uiaGridRowName (withSel env { sel with messageClass := .ok none })
    ∧ uiaGridRowName (withSel env (selAllErrors e1 e2 e3 e4))
      = uiaGridRowName (withSel env selAllDefaults)
    ∧ importanceLabels 1 = none :=
  ⟨rfl, rfl, rfl, rfl, rfl, rfl⟩

/-- C9: the handler's complete effect, keyed on the snapshot of role, window
class name and control ID taken at entry: the two reparenting patches, the
description suppression for menu bars and menu items, the focus-event flag
for tree/list objects, the role override to list item, and no change to any
other field. -/
theorem event_NVDAObject_init_effect {P : Type} (gp : NVDAObject P → P) (gpw : P → P)
    (obj : NVDAObject P) :
    (event_NVDAObject_init gp gpw obj).parent
      = (if (obj.role = ROLE_EDITABLETEXT ∧ obj.windowClassName = "RichEdit20W"
              ∧ obj.windowControlID = 8224)
            ∨ (obj.windowClassName = "Internet Explorer_Server" ∧ obj.role = ROLE_PANE
              ∧ obj.isMSHTML = false)
          then gpw (gp obj) else obj.parent)
    ∧ (event_NVDAObject_init gp gpw obj).description
      = (if obj.role = ROLE_MENUBAR ∨ obj.role = ROLE_MENUITEM then none else obj.description)
    ∧ (event_NVDAObject_init gp gpw obj).shouldAllowIAccessibleFocusEvent
      = (if obj.role = ROLE_TREEVIEW ∨ obj.role = ROLE_TREEVIEWITEM ∨ obj.role = ROLE_LIST
            ∨ obj.role = ROLE_LISTITEM
          then true else obj.shouldAllowIAccessibleFocusEvent)
    ∧ (event_NVDAObject_init gp gpw obj).role
      = (if ((obj.windowClassName = "SUPERGRID" ∧ obj.windowControlID = 4704)
            ∨ (obj.windowClassName = "rctrl_renwnd32" ∧ obj.windowControlID = 109))
            ∧ obj.role = ROLE_UNKNOWN
          then ROLE_LISTITEM else obj.role)
    ∧ (event_NVDAObject_init gp gpw obj).windowClassName = obj.windowClassName
    ∧ (event_NVDAObject_init gp gpw obj).windowControlID = obj.windowControlID
    ∧ (event_NVDAObject_init gp gpw obj).isMSHTML = obj.isMSHTML := by
  simp only [event_NVDAObject_init, apply_ite NVDAObject.isMSHTML, ite_self]
  by_cases hRich : obj.role = ROLE_EDITABLETEXT ∧ obj.windowClassName = "RichEdit20W"
      ∧ obj.windowControlID = 8224 <;>
    by_cases hIE : obj.windowClassName = "Internet Explorer_Server" ∧ obj.role = ROLE_PANE
        ∧ obj.isMSHTML = false <;>
      split_ifs <;>
        simp_all [ROLE_UNKNOWN, ROLE_PANE, ROLE_EDITABLETEXT, ROLE_MENUBAR, ROLE_MENUITEM,
          ROLE_LIST, ROLE_LISTITEM, ROLE_TREEVIEW, ROLE_TREEVIEWITEM, ← Bool.not_eq_true] <;>
        tauto
